import Mathlib

/-!
Verification development for the Genesis crop-stress monitoring repository.

Part A embeds the JavaScript source files shallowly in Lean:
  * the dashboard page (growth-stage table and days-after-sowing calculation),
  * the season helper (month-based season detection),
  * the crop service (crop-cycle input validation).

JavaScript dates are modelled by the inductive `SowDate`: a date value is
missing (falsy), present but unparseable (an Invalid Date, whose numeric
value is NaN so that every `<`/`>`/`>=`/`<=` comparison on it is false),
or a valid instant measured as an integer timestamp.  Months extracted by
`getMonth` are modelled as `Option Nat` (`none` when the date is invalid,
since `NaN` propagates), and the JS comparison operators on a possibly-NaN
month are the `jsGe`/`jsLe` functions below, false on `none`.

Part B models the ml-service stress-inference pipeline.  Its Python
sources (feature_engineering.py, model.py, rule_engine.py, severity.py,
explainer.py, stress_predictor.py) are not present in the repository
snapshot - only README_ML.md describes them - so those definitions are
modelled from the specification and marked as such in their doc comments.
-/

namespace Genesis

/-- A JavaScript date-valued input: missing (falsy), present but
unparseable (Invalid Date / NaN), or a valid instant with an integer
timestamp in milliseconds. -/
inductive SowDate where
  | missing : SowDate
  | unparseable : SowDate
  | valid : Int → SowDate
deriving DecidableEq, Repr

/-- Numeric value of a JS date for comparison purposes: `none` is NaN. -/
def SowDate.time : SowDate → Option Int
  | .missing => none
  | .unparseable => none
  | .valid t => some t

/-- JS `>` on a possibly-NaN left operand: any comparison with NaN is false. -/
def jsGt (a : Option Int) (b : Int) : Bool :=
  match a with
  | none => false
  | some x => b < x

/-! ### Dashboard page (source: app dashboard, `getGrowthStage`, `daysAfterSowing`)

The dashboard computes `daysAfterSowing = Math.floor((today - sowingDateObj) / 86400000)`
and maps it through `getGrowthStage`, a chain of inclusive upper-bound checks. -/

/-- Embeds `getGrowthStage` from the dashboard page:
`das <= 20` germination, `das <= 45` vegetative/tillering, `das <= 75`
stem elongation, `das <= 105` flowering, `das <= 135` grain filling,
otherwise maturity. -/
def getGrowthStage (das : Int) : String :=
  if das ≤ 20 then "Germination"
  else if das ≤ 45 then "Vegetative (Tillering)"
  else if das ≤ 75 then "Stem Elongation"
  else if das ≤ 105 then "Flowering"
  else if das ≤ 135 then "Grain Filling"
  else "Maturity"

/-- The six stage names `getGrowthStage` can return, in order. -/
def growthStages : List String :=
  ["Germination", "Vegetative (Tillering)", "Stem Elongation",
   "Flowering", "Grain Filling", "Maturity"]

/-- Embeds the dashboard calculation
`Math.floor((today - sowingDateObj) / (1000 * 60 * 60 * 24))`:
floor division of the millisecond difference by one day.
`Int.fdiv` is floor division, matching JS `Math.floor` of the real quotient. -/
def daysAfterSowing (today sowing : Int) : Int :=
  Int.fdiv (today - sowing) 86400000

/-! ### Season helper (source: seasonHelper, `detectSeason`, `getSeasons`)

`detectSeason` returns null on a falsy input, otherwise takes
`new Date(sowingDate).getMonth()` (NaN for an unparseable date, so every
branch test is false and the function falls through to its final
`return null`). -/

/-- JS `>=` on a possibly-NaN month. -/
def jsGe (a : Option Nat) (b : Nat) : Bool :=
  match a with
  | none => false
  | some x => b ≤ x

/-- JS `<=` on a possibly-NaN month. -/
def jsLe (a : Option Nat) (b : Nat) : Bool :=
  match a with
  | none => false
  | some x => x ≤ b

/-- A sowing-date input to `detectSeason`: missing (falsy), unparseable
(month is NaN), or parseable with a month in 0..11 as returned by JS
`Date.getMonth`. -/
inductive DateVal where
  | missing : DateVal
  | unparseable : DateVal
  | parsed : Fin 12 → DateVal
deriving DecidableEq, Repr

/-- `new Date(x).getMonth()`: `none` models NaN for an unparseable date. -/
def DateVal.month : DateVal → Option Nat
  | .missing => none
  | .unparseable => none
  | .parsed m => some m.val

/-- Embeds `detectSeason` from the season helper: null on a falsy input;
otherwise month 10,11,0,1 gives Winter, 2..5 Summer, 6..9 Monsoon, and an
unparseable date (NaN month) falls through every comparison to null. -/
def detectSeason (sowingDate : DateVal) : Option String :=
  if sowingDate = .missing then none
  else
    let month := sowingDate.month
    if jsGe month 10 || jsLe month 1 then some "Winter"
    else if jsGe month 2 && jsLe month 5 then some "Summer"
    else if jsGe month 6 && jsLe month 9 then some "Monsoon"
    else none

/-- Embeds `getSeasons` from the season helper. -/
def getSeasons : List String := ["Winter", "Summer", "Monsoon"]

/-! ### Crop service validation (source: cropService, `validateCropData`) -/

/-- Input record for `validateCropData`.  String fields are `Option String`
(`none` models an absent/undefined field); `location_village` is `none`
when either `location` or `location.village` is absent, matching the JS
optional chaining `data.location?.village?.trim()`. -/
structure CropData where
  crop_type : Option String
  soil_type : Option String
  sowing_date : SowDate
  season : Option String
  location_village : Option String
deriving DecidableEq, Repr

/-- Whitespace characters removed by JS `String.prototype.trim`
(the ASCII ones occurring in form input). -/
def isWhite (c : Char) : Bool :=
  c = ' ' || c = '\t' || c = '\n' || c = '\r'

/-- JS `String.prototype.trim`: strips leading and trailing whitespace. -/
def jsTrim (s : String) : String :=
  ⟨((s.data.dropWhile isWhite).reverse.dropWhile isWhite).reverse⟩

/-- JS truthiness test `!s?.trim()`: true when the field is absent or its
trimmed value is the empty string. -/
def isBlank (s : Option String) : Bool :=
  match s with
  | none => true
  | some v => jsTrim v = ""

/-- Result record of `validateCropData`. -/
structure ValidationResult where
  isValid : Bool
  errors : List String
deriving DecidableEq, Repr

/-- Embeds `validateCropData` from the crop service.  `now` is the integer
timestamp of `new Date()` at the moment of the call.  The future-date check
`new Date(data.sowing_date) > new Date()` uses `jsGt` on the parsed time,
so it is false when the sowing date is missing or unparseable (NaN). -/
def validateCropData (data : CropData) (now : Int) : ValidationResult :=
  let errors : List String :=
    (if isBlank data.crop_type then ["Crop type is required"] else []) ++
    (if isBlank data.soil_type then ["Soil type is required"] else []) ++
    (if data.sowing_date = .missing then ["Sowing date is required"] else []) ++
    (if isBlank data.season then ["Season is required"] else []) ++
    (if isBlank data.location_village then ["Village/Location name is required"] else []) ++
    (if jsGt data.sowing_date.time now then ["Sowing date cannot be in the future"] else [])
  ⟨errors.isEmpty, errors⟩

/-! ## Part B: the ml-service stress-inference pipeline

Modelled from the spec: the Python modules feature_engineering.py,
model.py, rule_engine.py, severity.py, explainer.py and
stress_predictor.py of the ml-service are absent from the repository
snapshot (only README_ML.md documents them), so the definitions below
follow the specification text.  Dates on this side are integer day
numbers; `now` is the evaluation date passed to the pipeline.  Numeric
thresholds the spec leaves as a tunable domain table are named constants
with the spec's illustrative values where given. -/

/-- The four stress types (classification target). -/
inductive StressType where
  | moisture_stress : StressType
  | heat_stress : StressType
  | waterlogging : StressType
  | no_stress : StressType
deriving DecidableEq, Repr

/-- The six ordinal growth stages of the fixed day-range table. -/
inductive GrowthStage where
  | germination : GrowthStage
  | tillering : GrowthStage
  | stem_elongation : GrowthStage
  | flowering : GrowthStage
  | grain_filling : GrowthStage
  | maturity : GrowthStage
deriving DecidableEq, Repr

/-- Ordinal severity grade. -/
inductive Severity where
  | low : Severity
  | medium : Severity
  | high : Severity
deriving DecidableEq, Repr

/-- Rank of a severity grade, for monotonicity statements. -/
def Severity.rank : Severity → Nat
  | .low => 0
  | .medium => 1
  | .high => 2

/-- Soil-moisture-retention category derived from soil_type.  High
retention (clay) is the poorly-draining, waterlogging-prone category the
spec calls "low-drainage". -/
inductive Retention where
  | low_retention : Retention
  | moderate_retention : Retention
  | high_retention : Retention
deriving DecidableEq, Repr

/-- Error taxonomy of the pipeline as surfaced by `predict`:
`InvalidInput` rejects the request before inference.  `ModelUnavailable`
never escapes `predict` (it triggers the degraded rule-only fallback)
and is modelled by passing `none` as the classifier. -/
inductive PipelineError where
  | invalidInput : PipelineError
deriving DecidableEq, Repr

/-- Raw weather sub-record of a StressRequest; every field may be absent. -/
structure WeatherInput where
  avg_temp : Option ℚ
  rainfall : Option ℚ
  rolling_7day_rainfall : Option ℚ
  consecutive_dry_days : Option ℕ
  temp_deviation_from_normal : Option ℚ
deriving DecidableEq, Repr

/-- Modelled from the spec: StressRequest, the raw pipeline input.
`sowing_date` uses the `SowDate` model with integer day numbers. -/
structure StressRequest where
  crop_type : String
  soil_type : String
  sowing_date : SowDate
  season : String
  weather : WeatherInput
deriving DecidableEq, Repr

/-- Modelled from the spec: the fixed growth-stage table of the feature
engineer, inclusive upper bounds 20/45/75/105/135, open-ended maturity. -/
def stageOfDays (das : ℕ) : GrowthStage :=
  if das ≤ 20 then .germination
  else if das ≤ 45 then .tillering
  else if das ≤ 75 then .stem_elongation
  else if das ≤ 105 then .flowering
  else if das ≤ 135 then .grain_filling
  else .maturity

/-- Modelled from the spec: soil-retention category from soil_type
(sandy variants drain fast, clay retains water / drains poorly). -/
def retentionOfSoil (soil : String) : Retention :=
  if soil = "clay" then .high_retention
  else if soil = "sandy" ∨ soil = "sandy_loam" then .low_retention
  else .moderate_retention

/-- Modelled from the spec: DerivedFeatures produced by the feature
engineer, carrying the request context the later stages need. -/
structure DerivedFeatures where
  crop_type : String
  season : String
  days_after_sowing : ℕ
  growth_stage : GrowthStage
  avg_temp : ℚ
  rainfall : ℚ
  rolling_7day_rainfall : ℚ
  consecutive_dry_days : ℕ
  temp_deviation_from_normal : ℚ
  soil_retention : Retention
deriving DecidableEq, Repr

/-- Modelled from the spec: the feature engineer
(feature_engineering.py, absent from the snapshot).  Fails with
`InvalidInput` when sowing_date is missing, unparseable, or strictly
after the evaluation date; otherwise derives days_after_sowing as the
calendar delta, the growth stage from the fixed table, and defaults
every absent weather sub-field to 0 (an absent temp_deviation is "no
deviation"). -/
def featureEngineer (req : StressRequest) (now : Int) :
    Except PipelineError DerivedFeatures :=
  match req.sowing_date with
  | .missing => .error .invalidInput
  | .unparseable => .error .invalidInput
  | .valid t =>
    if now < t then .error .invalidInput
    else
      .ok ⟨req.crop_type, req.season, (now - t).toNat, stageOfDays (now - t).toNat,
        req.weather.avg_temp.getD 0, req.weather.rainfall.getD 0,
        req.weather.rolling_7day_rainfall.getD 0,
        req.weather.consecutive_dry_days.getD 0,
        req.weather.temp_deviation_from_normal.getD 0,
        retentionOfSoil req.soil_type⟩

/-- Modelled from the spec: ClassifierOutput.  `max_probability` is the
maximum of label_probabilities (in [0,1]); ml_confidence is that value
times 100. -/
structure ClassifierOutput where
  predicted_label : StressType
  max_probability : ℚ
deriving DecidableEq, Repr

/-- A loaded classifier: a pure black-box function from features to
classifier output (spec section 4.2). -/
def Classifier : Type := DerivedFeatures → ClassifierOutput

/-- High dry-day threshold of the rule engine (spec example value 10). -/
def DRY_DAYS_HIGH : ℕ := 10

/-- High 7-day-rainfall threshold of the waterlogging rule (tunable). -/
def RAIN_7DAY_HIGH : ℚ := 100

/-- High positive temperature-deviation threshold of the heat rule
(tunable). -/
def HEAT_DEV_HIGH : ℚ := 5

/-- Minimum-confidence floor below which the classifier label is not
trusted (tunable). -/
def CONFIDENCE_FLOOR : ℚ := 1/2

/-- Modelled from the spec: ValidatedStress, the rule engine result. -/
structure ValidatedStress where
  final_label : StressType
  validation_reason : String
  contributing_rule_ids : List String
deriving DecidableEq, Repr

/-- Modelled from the spec: the rule engine (rule_engine.py, absent from
the snapshot).  Rules fire in priority order, the first matching
override wins; with no override, a sub-floor classifier confidence
yields insufficient_evidence with the conservative no_stress fallback,
and otherwise the classifier label is validated as-is. -/
def ruleEngine (f : DerivedFeatures) (c : ClassifierOutput) : ValidatedStress :=
  if DRY_DAYS_HIGH ≤ f.consecutive_dry_days then
    ⟨.moisture_stress, "overridden_by_rule", ["R1_dry_days_ceiling"]⟩
  else if RAIN_7DAY_HIGH < f.rolling_7day_rainfall ∧ f.soil_retention = .high_retention then
    ⟨.waterlogging, "overridden_by_rule", ["R2_waterlogging"]⟩
  else if HEAT_DEV_HIGH < f.temp_deviation_from_normal ∧
      (f.growth_stage = .flowering ∨ f.growth_stage = .grain_filling) then
    ⟨.heat_stress, "overridden_by_rule", ["R3_heat_sensitive_stage"]⟩
  else if c.max_probability < CONFIDENCE_FLOOR then
    ⟨.no_stress, "insufficient_evidence", ["R4_low_confidence"]⟩
  else
    ⟨c.predicted_label, "validated", []⟩

/-- Modelled from the spec: moisture-stress severity keyed on
consecutive-dry-day bands (monotone tiers). -/
def moistureSeverity (cdd : ℕ) : Severity :=
  if 15 ≤ cdd then .high else if 8 ≤ cdd then .medium else .low

/-- Modelled from the spec: heat-stress severity keyed on
temperature-deviation bands. -/
def heatSeverity (dev : ℚ) : Severity :=
  if 8 ≤ dev then .high else if 6 ≤ dev then .medium else .low

/-- Modelled from the spec: waterlogging severity keyed on
7-day-rainfall bands. -/
def waterlogSeverity (rain7 : ℚ) : Severity :=
  if 150 ≤ rain7 then .high else if 120 ≤ rain7 then .medium else .low

/-- Modelled from the spec: per-stress-type severity mapping; no_stress
is always low. -/
def severityOf (label : StressType) (f : DerivedFeatures) : Severity :=
  match label with
  | .moisture_stress => moistureSeverity f.consecutive_dry_days
  | .heat_stress => heatSeverity f.temp_deviation_from_normal
  | .waterlogging => waterlogSeverity f.rolling_7day_rainfall
  | .no_stress => .low

/-- Severity color, 1:1 from the grade. -/
def severityColor : Severity → String
  | .low => "yellow"
  | .medium => "amber"
  | .high => "red"

/-- Fixed confidence assigned when a rule overrides the classifier. -/
def OVERRIDE_CONFIDENCE : ℚ := 95

/-- Low ceiling capping confidence on insufficient evidence. -/
def EVIDENCE_CAP : ℚ := 40

/-- Modelled from the spec: blended post-rule confidence (severity.py,
absent from the snapshot): ml_confidence when validated, a fixed high
value on rule override, capped low on insufficient evidence. -/
def blendedConfidence (reason : String) (mlConfidence : ℚ) : ℚ :=
  if reason = "validated" then mlConfidence
  else if reason = "overridden_by_rule" then OVERRIDE_CONFIDENCE
  else min mlConfidence EVIDENCE_CAP

/-- Display name of a stress type. -/
def stressName : StressType → String
  | .moisture_stress => "moisture_stress"
  | .heat_stress => "heat_stress"
  | .waterlogging => "waterlogging"
  | .no_stress => "no_stress"

/-- Display name of a growth stage. -/
def stageName : GrowthStage → String
  | .germination => "germination"
  | .tillering => "tillering"
  | .stem_elongation => "stem_elongation"
  | .flowering => "flowering"
  | .grain_filling => "grain_filling"
  | .maturity => "maturity"

/-- Display name of a severity grade. -/
def sevName : Severity → String
  | .low => "low"
  | .medium => "medium"
  | .high => "high"

/-- Soil-retention phrase used by the explainer. -/
def retentionPhrase : Retention → String
  | .low_retention => "low"
  | .moderate_retention => "moderate"
  | .high_retention => "high"

/-- Modelled from the spec: the explainer (explainer.py, absent from the
snapshot) is pure template substitution naming the stress type, crop,
growth stage, measured dry-day feature, soil influence and season. -/
def explain (f : DerivedFeatures) (v : ValidatedStress) (sev : Severity) : String :=
  stressName v.final_label ++ " detected in " ++ f.crop_type ++ " during " ++
  stageName f.growth_stage ++ " stage. Field has experienced " ++
  toString f.consecutive_dry_days ++ " consecutive dry days. Soil type has " ++
  retentionPhrase f.soil_retention ++ " water retention capacity. Severity is " ++
  sevName sev ++ ". Seasonal baseline applied: " ++ f.season ++ "."

/-- Modelled from the spec: the fixed advisory table keyed by
(stress_type, severity). -/
def advisoryFor (label : StressType) (sev : Severity) : String :=
  match label, sev with
  | .moisture_stress, .low => "Monitor soil moisture closely."
  | .moisture_stress, .medium => "Increase irrigation frequency by 20 percent."
  | .moisture_stress, .high => "Irrigate immediately to avoid yield loss."
  | .heat_stress, .low => "Monitor canopy temperature."
  | .heat_stress, .medium => "Schedule irrigation for evening hours."
  | .heat_stress, .high => "Apply protective irrigation now."
  | .waterlogging, .low => "Check field drainage."
  | .waterlogging, .medium => "Open drainage channels."
  | .waterlogging, .high => "Drain standing water immediately."
  | .no_stress, _ => "No action required. Conditions are normal."

/-- Uniform no-information prior used when the model is unavailable:
equal probability across the four classes, so max probability 1/4. -/
def uniformPriorOutput : ClassifierOutput := ⟨.no_stress, 1/4⟩

/-- Suffix marking validation_reason in degraded (model-unavailable)
mode, keeping degraded results distinguishable. -/
def DEGRADED_MARK : String := "_degraded_model"

/-- The validation reasons the rule engine can emit in full mode. -/
def baseReasons : List String :=
  ["validated", "overridden_by_rule", "insufficient_evidence"]

/-- Report metadata block. -/
structure ReportMetadata where
  growth_stage : String
  days_after_sowing : ℕ
  season : String
  ml_prediction : String
  ml_confidence : ℚ
  validation_reason : String
deriving DecidableEq, Repr

/-- Modelled from the spec: the StressReport value object. -/
structure StressReport where
  stress_type : StressType
  severity : Severity
  severity_color : String
  confidence : ℚ
  advisory : String
  explanation : String
  metadata : ReportMetadata
deriving DecidableEq, Repr

/-- Modelled from the spec: the orchestrator `predict`
(stress_predictor.py, absent from the snapshot).  Sequences feature
engineering, classification, rule validation, severity scoring and
explanation; fails fast on `InvalidInput`; on an unavailable model
(`model = none`) substitutes the uniform prior and suffixes
validation_reason with the degraded mark. -/
def predict (model : Option Classifier) (req : StressRequest) (now : Int) :
    Except PipelineError StressReport :=
  match featureEngineer req now with
  | .error e => .error e
  | .ok f =>
    let c := match model with
      | some cl => cl f
      | none => uniformPriorOutput
    let v := ruleEngine f c
    let reason := if model.isNone then v.validation_reason ++ DEGRADED_MARK
      else v.validation_reason
    let sev := severityOf v.final_label f
    .ok ⟨v.final_label, sev, severityColor sev,
      blendedConfidence v.validation_reason (c.max_probability * 100),
      advisoryFor v.final_label sev, explain f v sev,
      ⟨stageName f.growth_stage, f.days_after_sowing, f.season,
       stressName c.predicted_label, c.max_probability * 100, reason⟩⟩

/-- The same request with temp_deviation_from_normal replaced, the other
fields untouched (used to state the missing-field default policy). -/
def setDeviation (req : StressRequest) (d : Option ℚ) : StressRequest :=
  ⟨req.crop_type, req.soil_type, req.sowing_date, req.season,
   ⟨req.weather.avg_temp, req.weather.rainfall, req.weather.rolling_7day_rainfall,
    req.weather.consecutive_dry_days, d⟩⟩

/-- The same request with consecutive_dry_days replaced, the other fields
untouched (used to state severity monotonicity). -/
def setDryDays (req : StressRequest) (n : ℕ) : StressRequest :=
  ⟨req.crop_type, req.soil_type, req.sowing_date, req.season,
   ⟨req.weather.avg_temp, req.weather.rainfall, req.weather.rolling_7day_rainfall,
    some n, req.weather.temp_deviation_from_normal⟩⟩

/-- A deterministic classifier stub confidently predicting heat stress,
used to instantiate theorems at concrete inputs. -/
def stubHeatClassifier : Classifier := fun _ => ⟨.heat_stress, 9/10⟩

/-- Concrete request matching the spec's dry-day override example:
avg_temp 22, rainfall 0, consecutive_dry_days 12, sown 30 days before the
evaluation date. -/
def reqDry : StressRequest :=
  ⟨"wheat", "loam", .valid 0, "winter", ⟨some 22, some 0, some 1, some 12, some 0⟩⟩

/-- Concrete request matching the spec's missing-deviation example:
wheat, loam, winter, avg_temp 20, rainfall 10, consecutive_dry_days 2, no
temp_deviation field. -/
def reqBase : StressRequest :=
  ⟨"wheat", "loam", .valid 0, "winter", ⟨some 20, some 10, some 15, some 2, none⟩⟩

/-- Concrete crop-cycle record whose sowing date is present but
unparseable, every other field well-formed. -/
def unparseableCrop : CropData :=
  ⟨some "Rice", some "Loamy", .unparseable, some "Winter", some "Pune"⟩

/-- Concrete pipeline request whose sowing date is unparseable. -/
def unparseableReq : StressRequest :=
  ⟨"rice", "loamy", .unparseable, "winter", ⟨none, none, none, none, none⟩⟩

/-- Monotone helper: the moisture-severity band table never decreases as
consecutive dry days increase. -/
theorem moistureSeverity_mono (a b : ℕ) (hab : a ≤ b) :
    (moistureSeverity a).rank ≤ (moistureSeverity b).rank := by
  unfold moistureSeverity
  split_ifs <;> simp [Severity.rank] <;> omega

/-- Helper: when the rule engine settles on moisture stress, the severity
scorer keys on the consecutive-dry-days band. -/
theorem severityOf_of_moisture (f : DerivedFeatures) (c : ClassifierOutput)
    (h : (ruleEngine f c).final_label = .moisture_stress) :
    severityOf (ruleEngine f c).final_label f = moistureSeverity f.consecutive_dry_days := by
  rw [h]
  rfl

/-- Claim C1: for every days_after_sowing at least 0 the growth-stage
function returns exactly one of the six ordinal stages, with the
inclusive band bounds 0-20, 21-45, 46-75, 76-105, 106-135 and 136 and
up, leaving no gaps and no overlaps at the boundaries. -/
theorem growth_stage_partition (das : Int) (h : 0 ≤ das) :
    getGrowthStage das ∈ growthStages ∧
    (getGrowthStage das = "Germination" ↔ das ≤ 20) ∧
    (getGrowthStage das = "Vegetative (Tillering)" ↔ 21 ≤ das ∧ das ≤ 45) ∧
    (getGrowthStage das = "Stem Elongation" ↔ 46 ≤ das ∧ das ≤ 75) ∧
    (getGrowthStage das = "Flowering" ↔ 76 ≤ das ∧ das ≤ 105) ∧
    (getGrowthStage das = "Grain Filling" ↔ 106 ≤ das ∧ das ≤ 135) ∧
    (getGrowthStage das = "Maturity" ↔ 136 ≤ das) := by
  unfold getGrowthStage growthStages
  split_ifs <;> simp_all <;> omega

/-- Witness for C1: at day 136 the table is in the open-ended maturity
band. -/
theorem growth_stage_partition_witness :
    (0 : Int) ≤ 136 ∧ getGrowthStage 136 = "Maturity" :=
  ⟨by decide, (growth_stage_partition 136 (by decide)).2.2.2.2.2.2.mpr (by decide)⟩

/-- Claim C2: a sowing date strictly after the evaluation date makes the
pipeline fail with InvalidInput before any StressReport is produced, the
crop-service validation flags the same input as invalid, and the
dashboard day counter would be negative on such an input. -/
theorem future_sowing_rejected :
    (∀ (model : Option Classifier) (req : StressRequest) (now t : Int),
      req.sowing_date = .valid t → now < t →
      predict model req now = .error .invalidInput) ∧
    (∀ (data : CropData) (now t : Int),
      data.sowing_date = .valid t → now < t →
      (validateCropData data now).isValid = false ∧
      "Sowing date cannot be in the future" ∈ (validateCropData data now).errors) ∧
    (∀ today sow : Int, today < sow → daysAfterSowing today sow < 0) := by
  refine ⟨?_, ?_, ?_⟩
  · intro model req now t hsow hlt
    simp [predict, featureEngineer, hsow, hlt]
  · intro data now t hsow hlt
    unfold validateCropData
    simp only [hsow]
    constructor
    · split_ifs <;> simp_all [jsGt, SowDate.time, List.isEmpty_iff]
    · split_ifs <;> simp_all [jsGt, SowDate.time]
  · intro today sow hlt
    unfold daysAfterSowing
    rw [Int.fdiv_eq_ediv _ (by norm_num)]
    omega

/-- Witness for C2: a request sown at day 50 evaluated at day 10 is
rejected everywhere, and a one-day-future sowing yields a negative day
count on the dashboard. -/
theorem future_sowing_rejected_witness :
    predict (some stubHeatClassifier)
        ⟨"wheat", "loam", .valid 50, "winter", ⟨none, none, none, none, none⟩⟩ 10
      = .error .invalidInput ∧
    (validateCropData ⟨some "Rice", some "Loamy", .valid 50, some "Winter", some "Pune"⟩ 10).isValid
      = false ∧
    daysAfterSowing 0 86400000 < 0 :=
  ⟨future_sowing_rejected.1 (some stubHeatClassifier) _ 10 50 rfl (by decide),
   (future_sowing_rejected.2.1 _ 10 50 rfl (by decide)).1,
   future_sowing_rejected.2.2 0 86400000 (by decide)⟩

/-- Claim C3 evaluation: `validateCropData` accepts a crop record whose
sowing date is present but unparseable (the Invalid-Date comparison is
false), returning isValid true with no error, while the pipeline feature
engineer modelled from the spec rejects the same condition with
InvalidInput. -/
theorem unparseable_sowing_accepted :
    (validateCropData unparseableCrop 1000).isValid = true ∧
    (validateCropData unparseableCrop 1000).errors = [] ∧
    featureEngineer unparseableReq 1000 = .error .invalidInput :=
  ⟨by decide, by decide, rfl⟩

/-- Claim C4: whenever consecutive_dry_days reaches the high dry-day
threshold 10, the rule engine overrides any classifier output and the
final report carries moisture_stress with reason overridden_by_rule. -/
theorem dry_days_override (model : Classifier) (req : StressRequest) (now t : Int) (n : ℕ)
    (hsow : req.sowing_date = .valid t) (hle : t ≤ now)
    (hcdd : req.weather.consecutive_dry_days = some n) (hn : 10 ≤ n) :
    ∃ r : StressReport, predict (some model) req now = .ok r ∧
      r.stress_type = .moisture_stress ∧
      r.metadata.validation_reason = "overridden_by_rule" := by
  have hnot : ¬ now < t := not_lt.mpr hle
  simp only [predict, featureEngineer, hsow, if_neg hnot]
  refine ⟨_, rfl, ?_, ?_⟩ <;>
    simp [ruleEngine, DRY_DAYS_HIGH, hcdd, hn]

/-- Witness for C4: the spec example, 12 dry days against a classifier
confidently predicting heat stress, still yields moisture_stress. -/
theorem dry_days_override_witness :
    ∃ r : StressReport, predict (some stubHeatClassifier) reqDry 30 = .ok r ∧
      r.stress_type = .moisture_stress ∧
      r.metadata.validation_reason = "overridden_by_rule" :=
  dry_days_override stubHeatClassifier reqDry 30 0 12 rfl (by decide) rfl (by decide)

/-- Claim C5: an absent temp_deviation_from_normal is treated exactly as
an explicit deviation of 0 (the whole prediction is unchanged), absent
rainfall-derived fields default to 0, and with zero deviation no rule
override ever produces heat_stress. -/
theorem missing_deviation_defaults (req : StressRequest) (now : Int)
    (hdev : req.weather.temp_deviation_from_normal = none) :
    (∀ model : Option Classifier,
      predict model req now = predict model (setDeviation req (some 0)) now) ∧
    (∀ f : DerivedFeatures, featureEngineer req now = .ok f →
      f.temp_deviation_from_normal = 0 ∧
      (req.weather.rainfall = none → f.rainfall = 0) ∧
      (req.weather.rolling_7day_rainfall = none → f.rolling_7day_rainfall = 0) ∧
      (req.weather.consecutive_dry_days = none → f.consecutive_dry_days = 0)) ∧
    (∀ (f : DerivedFeatures) (c : ClassifierOutput),
      f.temp_deviation_from_normal = 0 →
      (ruleEngine f c).validation_reason = "overridden_by_rule" →
      (ruleEngine f c).final_label ≠ .heat_stress) := by
  have hfe : featureEngineer req now = featureEngineer (setDeviation req (some 0)) now := by
    cases hs : req.sowing_date <;> simp [featureEngineer, setDeviation, hs, hdev]
  refine ⟨?_, ?_, ?_⟩
  · intro model
    unfold predict
    rw [hfe]
  · intro f hf
    rcases hs : req.sowing_date with _ | _ | t
    · simp [featureEngineer, hs] at hf
    · simp [featureEngineer, hs] at hf
    · by_cases hlt : now < t
      · simp [featureEngineer, hs, hlt] at hf
      · simp [featureEngineer, hs, hlt] at hf
        subst hf
        refine ⟨by simp [hdev], fun h => by simp [h], fun h => by simp [h],
          fun h => by simp [h]⟩
  · intro f c hzero hreason
    unfold ruleEngine at *
    split_ifs at * with h1 h2 h3 h4 <;> simp_all [HEAT_DEV_HIGH]
    exact absurd h3.1 (by norm_num)

/-- Witness for C5: the spec example request with no temp_deviation field
predicts identically to the same request with an explicit 0 deviation. -/
theorem missing_deviation_defaults_witness :
    reqBase.weather.temp_deviation_from_normal = none ∧
    predict (some stubHeatClassifier) reqBase 30
      = predict (some stubHeatClassifier) (setDeviation reqBase (some 0)) 30 :=
  ⟨rfl, (missing_deviation_defaults reqBase 30 rfl).1 (some stubHeatClassifier)⟩

/-- Claim C6: with the classifier unavailable, predict still succeeds on
valid input, its validation_reason is never one a full-confidence run can
produce, a high dry-day input still comes back as moisture_stress with
the degraded override reason, and full-mode runs always report one of the
three base reasons. -/
theorem model_unavailable_fallback :
    (∀ (req : StressRequest) (now t : Int), req.sowing_date = .valid t → t ≤ now →
      ∃ r : StressReport, predict none req now = .ok r ∧
        r.metadata.validation_reason ∉ baseReasons) ∧
    (∀ (req : StressRequest) (now t : Int) (n : ℕ),
      req.sowing_date = .valid t → t ≤ now →
      req.weather.consecutive_dry_days = some n → 10 ≤ n →
      ∃ r : StressReport, predict none req now = .ok r ∧
        r.stress_type = .moisture_stress ∧
        r.metadata.validation_reason = "overridden_by_rule" ++ DEGRADED_MARK) ∧
    (∀ (model : Classifier) (req : StressRequest) (now : Int) (r : StressReport),
      predict (some model) req now = .ok r →
      r.metadata.validation_reason ∈ baseReasons) := by
  refine ⟨?_, ?_, ?_⟩
  · intro req now t hsow hle
    have hnot : ¬ now < t := not_lt.mpr hle
    simp only [predict, featureEngineer, hsow, if_neg hnot]
    refine ⟨_, rfl, ?_⟩
    simp only [Option.isNone_none, if_pos]
    unfold ruleEngine
    split_ifs <;> decide
  · intro req now t n hsow hle hcdd hn
    have hnot : ¬ now < t := not_lt.mpr hle
    simp only [predict, featureEngineer, hsow, if_neg hnot]
    refine ⟨_, rfl, ?_, ?_⟩ <;>
      simp [ruleEngine, DRY_DAYS_HIGH, hcdd, hn]
  · intro model req now r h
    rcases hs : req.sowing_date with _ | _ | t
    · simp [predict, featureEngineer, hs] at h
    · simp [predict, featureEngineer, hs] at h
    · by_cases hlt : now < t
      · simp [predict, featureEngineer, hs, hlt] at h
      · simp [predict, featureEngineer, hs, hlt] at h
        subst h
        simp only [baseReasons]
        unfold ruleEngine
        split_ifs <;> simp

/-- Witness for C6: with no model and 15 consecutive dry days the rule
engine alone still yields moisture_stress, marked degraded. -/
theorem model_unavailable_fallback_witness :
    ∃ r : StressReport, predict none (setDryDays reqBase 15) 30 = .ok r ∧
      r.stress_type = .moisture_stress ∧
      r.metadata.validation_reason = "overridden_by_rule" ++ DEGRADED_MARK :=
  model_unavailable_fallback.2.1 (setDryDays reqBase 15) 30 0 15 rfl (by decide) rfl
    (by decide)

/-- Claim C7: predict is deterministic; two calls on identical request
and evaluation date return equal results, and in particular byte-equal
explanation strings. -/
theorem predict_deterministic (model : Option Classifier) (req1 req2 : StressRequest)
    (now1 now2 : Int) (hreq : req1 = req2) (hnow : now1 = now2) :
    predict model req1 now1 = predict model req2 now2 ∧
    (∀ r1 r2 : StressReport,
      predict model req1 now1 = .ok r1 → predict model req2 now2 = .ok r2 →
      r1 = r2 ∧ r1.explanation = r2.explanation) := by
  subst hreq; subst hnow
  refine ⟨rfl, ?_⟩
  intro r1 r2 h1 h2
  rw [h1] at h2
  cases h2
  exact ⟨rfl, rfl⟩

/-- Witness for C7: two identical calls on the dry-day example request
coincide. -/
theorem predict_deterministic_witness :
    predict (some stubHeatClassifier) reqDry 30 = predict (some stubHeatClassifier) reqDry 30 :=
  (predict_deterministic (some stubHeatClassifier) reqDry reqDry 30 30 rfl rfl).1

/-- Claim C8: for two requests identical except for consecutive_dry_days
that both resolve to moisture_stress, a larger dry-day count never gets a
lower severity grade. -/
theorem severity_monotone_in_dry_days (model : Option Classifier) (req : StressRequest)
    (now : Int) (n1 n2 : ℕ) (h12 : n1 ≤ n2)
    (hm1 : (predict model (setDryDays req n1) now).toOption.map StressReport.stress_type
            = some .moisture_stress)
    (hm2 : (predict model (setDryDays req n2) now).toOption.map StressReport.stress_type
            = some .moisture_stress) :
    (((predict model (setDryDays req n1) now).toOption.map
        fun r => r.severity.rank).getD 0)
      ≤ (((predict model (setDryDays req n2) now).toOption.map
        fun r => r.severity.rank).getD 0) := by
  rcases hs : req.sowing_date with _ | _ | t
  · simp [predict, featureEngineer, setDryDays, hs, Except.toOption] at hm1
  · simp [predict, featureEngineer, setDryDays, hs, Except.toOption] at hm1
  · by_cases hlt : now < t
    · simp [predict, featureEngineer, setDryDays, hs, hlt, Except.toOption] at hm1
    · simp only [predict, featureEngineer, setDryDays, hs, if_neg hlt,
        Except.toOption, Option.map_some', Option.some.injEq, Option.getD_some] at hm1 hm2 ⊢
      rw [severityOf_of_moisture _ _ hm1, severityOf_of_moisture _ _ hm2]
      exact moistureSeverity_mono n1 n2 h12

/-- Witness for C8: raising the dry-day count from 12 to 20 (both
override to moisture_stress) does not lower the severity rank. -/
theorem severity_monotone_in_dry_days_witness :
    (((predict (some stubHeatClassifier) (setDryDays reqBase 12) 30).toOption.map
        fun r => r.severity.rank).getD 0)
      ≤ (((predict (some stubHeatClassifier) (setDryDays reqBase 20) 30).toOption.map
        fun r => r.severity.rank).getD 0) :=
  severity_monotone_in_dry_days (some stubHeatClassifier) reqBase 30 12 20 (by decide)
    (by decide) (by decide)

/-- Claim C9: detectSeason maps months 10,11,0,1 to Winter, 2-5 to
Summer, 6-9 to Monsoon, always lands in the getSeasons list for a
parseable date, and returns null exactly on missing or unparseable
input. -/
theorem detectSeason_spec :
    (∀ d : DateVal, detectSeason d = none ↔ (d = .missing ∨ d = .unparseable)) ∧
    (∀ m : Fin 12,
      (10 ≤ m.val ∨ m.val ≤ 1 → detectSeason (.parsed m) = some "Winter") ∧
      (2 ≤ m.val ∧ m.val ≤ 5 → detectSeason (.parsed m) = some "Summer") ∧
      (6 ≤ m.val ∧ m.val ≤ 9 → detectSeason (.parsed m) = some "Monsoon") ∧
      detectSeason (.parsed m) ∈ getSeasons.map some) := by
  constructor
  · intro d
    rcases d with _ | _ | m
    · decide
    · decide
    · revert m; decide
  · decide

/-- Witness for C9: May is Summer, December is Winter, August is
Monsoon. -/
theorem detectSeason_spec_witness :
    detectSeason (.parsed ⟨4, by decide⟩) = some "Summer" ∧
    detectSeason (.parsed ⟨11, by decide⟩) = some "Winter" ∧
    detectSeason (.parsed ⟨7, by decide⟩) = some "Monsoon" :=
  ⟨(detectSeason_spec.2 ⟨4, by decide⟩).2.1 (by decide),
   (detectSeason_spec.2 ⟨11, by decide⟩).1 (by decide),
   (detectSeason_spec.2 ⟨7, by decide⟩).2.2.1 (by decide)⟩

/-- Claim C10: validateCropData reports isValid exactly when the error
list is empty, and each required field that is missing or blank - crop
type, soil type, sowing date, season, village - contributes its error,
as does a strictly future sowing date. -/
theorem validateCropData_spec (data : CropData) (now : Int) :
    ((validateCropData data now).isValid = true ↔ (validateCropData data now).errors = []) ∧
    ("Crop type is required" ∈ (validateCropData data now).errors ↔
      isBlank data.crop_type = true) ∧
    ("Soil type is required" ∈ (validateCropData data now).errors ↔
      isBlank data.soil_type = true) ∧
    ("Sowing date is required" ∈ (validateCropData data now).errors ↔
      data.sowing_date = .missing) ∧
    ("Season is required" ∈ (validateCropData data now).errors ↔
      isBlank data.season = true) ∧
    ("Village/Location name is required" ∈ (validateCropData data now).errors ↔
      isBlank data.location_village = true) ∧
    ("Sowing date cannot be in the future" ∈ (validateCropData data now).errors ↔
      jsGt data.sowing_date.time now = true) := by
  unfold validateCropData
  split_ifs <;> simp_all [List.isEmpty_iff]

end Genesis
